import Mathlib

/-!
Verification of the UDP status core of the Powersoft amplifiers module
(`src/udp.ts`): frame codec (`buildFrame` / `parseHeader` with the
`crc16IBM` checksum), the three payload decoders (`parseStandbyData`,
`parseReadgmData`, `parseReadAllAlarms2Data`), the transport exchange
(`udpRequest`) and the status aggregator (`readUdpStatus`).

Buffers are modelled as `List Nat` of byte values; JavaScript numbers are
`Nat` (or `Int` for the signed 16-bit reads) with explicit `% 2^w` where
the source masks.  The effectful parts are modelled by explicit data: a
network exchange's outcome is an `Option (List Nat)` (`none` = timeout or
transport error, `some d` = reply payload `d`), and the single-shot
message listener of `udpRequest` is a function over the list of datagrams
that arrive before the deadline.
-/

namespace PowersoftUdp

/-- `Buffer.writeUInt16LE`: low byte first. -/
def writeUInt16LE (v : Nat) : List Nat :=
  [v % 256, v / 256 % 256]

/-- `Buffer.readUInt16LE`. -/
def readUInt16LE (buf : List Nat) (o : Nat) : Nat :=
  buf.getD o 0 + 256 * buf.getD (o + 1) 0

/-- `Buffer.readUInt32LE`. -/
def readUInt32LE (buf : List Nat) (o : Nat) : Nat :=
  buf.getD o 0 + 256 * buf.getD (o + 1) 0 + 65536 * buf.getD (o + 2) 0 +
    16777216 * buf.getD (o + 3) 0

/-- `Buffer.readInt16LE`: two's-complement signed 16-bit. -/
def readInt16LE (buf : List Nat) (o : Nat) : Int :=
  let v := readUInt16LE buf o
  if v < 32768 then (v : Int) else (v : Int) - 65536

/-- One inner-loop iteration of `crc16IBM`:
`mix = crc & 1; crc >>= 1; if (mix) crc ^= 0xa001`. -/
def crc16Round (crc : Nat) : Nat :=
  if crc % 2 = 1 then Nat.xor (crc / 2) 0xa001 else crc / 2

/-- Per-byte step of `crc16IBM`: xor the byte in, then 8 rounds. -/
def crc16Byte (crc b : Nat) : Nat :=
  (List.range 8).foldl (fun c _ => crc16Round c) (Nat.xor crc b)

/-- `crc16IBM(buf, offset, len)`: CRC-16 with feedback value `0xA001`,
initial register `0xFFFF`, LSB-first, over `buf[offset .. offset+len-1]`. -/
def crc16IBM (buf : List Nat) (offset len : Nat) : Nat :=
  (((buf.drop offset).take len).foldl crc16Byte 0xffff) % 65536

/-- The command codes of the `CMD` table. -/
def CMD.READGM : Nat := 0x01

def CMD.INFO : Nat := 0x0b

def CMD.STANDBY : Nat := 0x0e

def CMD.READALLALARMS2 : Nat := 0x19

/-- The 8-byte frame header laid out by `buildFrame`:
STX, masked command, cookie (LE16), payload count (LE16), answer port (LE16). -/
def frameBody (cmd cookie answerPort : Nat) (data : List Nat) : List Nat :=
  [0x02, cmd % 256] ++ writeUInt16LE (cookie % 65536) ++
    writeUInt16LE (data.length % 65536) ++ writeUInt16LE (answerPort % 65536) ++ data

/-- The 4-byte frame trailer laid out by `buildFrame`: masked CRC (LE16),
`~cmd & 0xff`, ETX. -/
def frameTrailer (cmd crc : Nat) : List Nat :=
  writeUInt16LE (crc % 65536) ++ [255 - cmd % 256, 0x03]

/-- The checksum value `buildFrame` writes: 0 when forced, otherwise the
CRC over bytes `[0 .. 7+N]` (start marker through last payload byte). -/
def frameCrc (cmd cookie answerPort : Nat) (data : List Nat) (forceZeroCrc : Bool) : Nat :=
  if forceZeroCrc then 0 else crc16IBM (frameBody cmd cookie answerPort data) 0 (8 + data.length)

/-- `buildFrame(cmd, cookie, answerPort, data, forceZeroCrc)`: header, payload,
CRC-16 over bytes `[0 .. 7+N]` (or 0 when forced), `~cmd & 0xff`, ETX. -/
def buildFrame (cmd cookie answerPort : Nat) (data : List Nat) (forceZeroCrc : Bool) :
    List Nat :=
  frameBody cmd cookie answerPort data ++
    frameTrailer cmd (frameCrc cmd cookie answerPort data forceZeroCrc)

/-- The record returned by `parseHeader`. -/
structure Header where
  STX : Nat
  cmd : Nat
  cookie : Nat
  count : Nat
  answerPort : Nat
  data : List Nat
  crc16 : Nat
  notCmd : Nat
  ETX : Nat
deriving DecidableEq, Repr, Inhabited

/-- `parseHeader(msg)`: checks length ≥ 12, STX = 0x02 and that the declared
payload plus the 4-byte trailer fits, then returns the header fields, the
payload slice and the trailer reads (at the source's own offsets `dataEnd+1`
and `dataEnd+2`), validating neither checksum nor end marker. -/
def parseHeader (msg : List Nat) : Except String Header :=
  if msg.length < 12 then Except.error ("UDP frame too short")
  else if msg.getD 0 0 ≠ 0x02 then Except.error ("Bad STX")
  else if msg.length < (8 + readUInt16LE msg 4) + 4 then Except.error ("Truncated frame")
  else Except.ok
    { STX := msg.getD 0 0
      cmd := msg.getD 1 0
      cookie := readUInt16LE msg 2
      count := readUInt16LE msg 4
      answerPort := readUInt16LE msg 6
      data := (msg.drop 8).take (readUInt16LE msg 4)
      crc16 := readUInt16LE msg (8 + readUInt16LE msg 4)
      notCmd := msg.getD (8 + readUInt16LE msg 4 + 1) 0
      ETX := msg.getD (8 + readUInt16LE msg 4 + 2) 0 }

/-- `true` iff `parseHeader` succeeded. -/
def parseOk (msg : List Nat) : Bool :=
  match parseHeader msg with
  | Except.ok _ => true
  | Except.error _ => false

/-- The header returned by a successful `parseHeader`, or the default record
when parsing failed. -/
def parsedOrDefault (msg : List Nat) : Header :=
  match parseHeader msg with
  | Except.ok h => h
  | Except.error _ => default

/-- Result of `parseStandbyData`. -/
structure StandbyResult where
  ok : Bool
  standbyRaw : Option Nat
deriving DecidableEq, Repr

/-- `parseStandbyData(data)`: with at least 2 bytes, byte 0 is the answer-ok
flag and byte 1 the raw ON/OFF state; otherwise not ok with no raw state. -/
def parseStandbyData (data : List Nat) : StandbyResult :=
  if 2 ≤ data.length then
    { ok := data.getD 0 0 == 1, standbyRaw := some (data.getD 1 0) }
  else
    { ok := false, standbyRaw := none }

/-- One decoded READGM channel.  `parseReadgmData` always fills all four
fields of a channel it emits, so they are not optional here. -/
structure GmChannel where
  inGain : Rat
  outGain : Rat
  inMute : Bool
  outMute : Bool
deriving DecidableEq, Repr

instance : Inhabited GmChannel :=
  ⟨{ inGain := 0, outGain := 0, inMute := false, outMute := false }⟩

/-- The four per-channel reads of the READGM loop body, starting at offset
`p`: inGain (LE int16, hundredths of dB), outGain likewise, inMute, outMute. -/
def readGmChannel (data : List Nat) (p : Nat) : GmChannel :=
  { inGain := (readInt16LE data p : Rat) / 100
    outGain := (readInt16LE data (p + 2) : Rat) / 100
    inMute := data.getD (p + 4) 0 == 1
    outMute := data.getD (p + 5) 0 == 1 }

/-- The READGM per-channel loop: at most `r` more channels, reading 6 bytes
per channel from offset `p`, breaking when fewer than 6 bytes remain. -/
def parseReadgmLoop (data : List Nat) : Nat → Nat → List GmChannel
  | _, 0 => []
  | p, r + 1 =>
    if data.length < p + 6 then []
    else readGmChannel data p :: parseReadgmLoop data (p + 6) r

/-- Result of `parseReadgmData`. -/
structure GmResult where
  ok : Bool
  channels : List GmChannel
deriving DecidableEq, Repr

/-- `parseReadgmData(data, maxChannels)`: byte 0 = answer-ok, byte 1 = device
channel count, then the per-channel loop over `min(count, maxChannels)`. -/
def parseReadgmData (data : List Nat) (maxChannels : Nat) : GmResult :=
  if data.length < 2 then { ok := false, channels := [] }
  else
    { ok := data.getD 0 0 == 1
      channels := parseReadgmLoop data 2 (min (data.getD 1 0) maxChannels) }

/-- Result of `parseReadAllAlarms2Data`. -/
structure AlarmsResult where
  ok : Bool
  fault : Bool
  gpio : Option Nat
  global : Option Nat
  channelWords : Option (List Nat)
deriving DecidableEq, Repr

/-- The per-channel alarm-word loop: up to `n` LE 32-bit words from offset
`p`, stopping when fewer than 4 bytes remain. -/
def readAlarmWords (data : List Nat) : Nat → Nat → List Nat
  | _, 0 => []
  | p, n + 1 =>
    if p + 4 ≤ data.length then readUInt32LE data p :: readAlarmWords data (p + 4) n
    else []

/-- `parseReadAllAlarms2Data(data)`: byte 0 = answer-ok (short-circuit when
not 1), byte 1 = gpio alarms, bytes 2-3 reserved, LE u32 global word at
offset 4, then up to 8 LE u32 per-channel words; the fault flag is the OR of
"global nonzero" and "some channel word nonzero". -/
def parseReadAllAlarms2Data (data : List Nat) : AlarmsResult :=
  if data.length < 1 then
    { ok := false, fault := false, gpio := none, global := none, channelWords := none }
  else if data.getD 0 0 ≠ 1 then
    { ok := false, fault := false, gpio := none, global := none, channelWords := none }
  else if data.length < 1 + 1 + 2 + 4 then
    { ok := true, fault := false, gpio := none, global := none, channelWords := none }
  else
    let gpio := data.getD 1 0
    let global := readUInt32LE data 4
    let channelWords := readAlarmWords data 8 8
    { ok := true
      fault := (global != 0) || channelWords.any (fun w => w != 0)
      gpio := some gpio
      global := some global
      channelWords := some channelWords }

/-- One entry of `UdpStatus.channels`; every field starts unset. -/
structure ChannelStatus where
  mute : Option Bool := none
  gain : Option Rat := none
  clip : Option Bool := none
  overTemp : Option Bool := none
  lowLoad : Option Bool := none
  railFault : Option Bool := none
  otherFault : Option Bool := none
  thermalSOA : Option Bool := none
  auxCurrentFault : Option Bool := none
deriving DecidableEq, Repr

/-- The fresh (all-unset) channel entry `{}`. -/
def emptyChannel : ChannelStatus := {}

instance : Inhabited ChannelStatus := ⟨emptyChannel⟩

/-- The aggregated `UdpStatus` snapshot. -/
structure UdpStatus where
  power : Option Bool := none
  fault : Option Bool := none
  channels : List ChannelStatus := []
deriving DecidableEq, Repr

/-- Pointwise in-place update of the channel array: `mergeChannels f i0 l`
replaces each `l[i]` by `f (i0 + i) l[i]`. -/
def mergeChannels (f : Nat → ChannelStatus → ChannelStatus) :
    Nat → List ChannelStatus → List ChannelStatus
  | _, [] => []
  | i, c :: rest => f i c :: mergeChannels f (i + 1) rest

/-- The STANDBY branch of `readUdpStatus`: when the decoder reports ok and a
raw state, set `power` to "raw = 2" (2 = operating, 1 = standby). -/
def applyStandby (st : UdpStatus) (d : List Nat) : UdpStatus :=
  match (parseStandbyData d).standbyRaw with
  | some raw => if (parseStandbyData d).ok then { st with power := some (raw == 2) } else st
  | none => st

/-- The READGM merge for one channel: prefer output mute/gain (the decoder
always fills the output fields, so the input fallbacks of the source are
never taken). -/
def mergeGmChannel (c : ChannelStatus) (g : GmChannel) : ChannelStatus :=
  { c with mute := some g.outMute, gain := some g.outGain }

/-- The READGM branch of `readUdpStatus`: when ok, write mute/gain into
channels `0 .. min(decoded, maxChannels) - 1`. -/
def applyGm (st : UdpStatus) (d : List Nat) (maxChannels : Nat) : UdpStatus :=
  if (parseReadgmData d maxChannels).ok then
    { st with
      channels := mergeChannels
        (fun i c =>
          if i < min (parseReadgmData d maxChannels).channels.length maxChannels then
            mergeGmChannel c ((parseReadgmData d maxChannels).channels.getD i default)
          else c)
        0 st.channels }
  else st

/-- `(w & (1 << k)) !== 0`: the bit test used for the alarm flags. -/
def bitSet (w k : Nat) : Bool :=
  (w &&& (1 <<< k)) != 0

/-- The READALLALARMS2 merge for one channel: when the word is nonzero, set
the seven alarm flags from its bits (mapping from the PDF). -/
def mergeAlarmChannel (c : ChannelStatus) (w : Nat) : ChannelStatus :=
  if w ≠ 0 then
    { c with
      clip := some (bitSet w 0)
      thermalSOA := some (bitSet w 1)
      overTemp := some (bitSet w 3)
      railFault := some (bitSet w 4)
      auxCurrentFault := some (bitSet w 5)
      otherFault := some (bitSet w 6)
      lowLoad := some (bitSet w 7) }
  else c

/-- The READALLALARMS2 branch of `readUdpStatus`: when ok, set the global
fault flag and merge the per-channel words. -/
def applyAlarms (st : UdpStatus) (d : List Nat) (maxChannels : Nat) : UdpStatus :=
  if (parseReadAllAlarms2Data d).ok then
    { st with
      fault := some (parseReadAllAlarms2Data d).fault
      channels := mergeChannels
        (fun i c =>
          if i < min ((parseReadAllAlarms2Data d).channelWords.getD []).length maxChannels then
            mergeAlarmChannel c (((parseReadAllAlarms2Data d).channelWords.getD []).getD i 0)
          else c)
        0 st.channels }
  else st

/-- `readUdpStatus(opts, maxChannels)` with each of the three exchanges'
outcomes made explicit: `none` models a caught failure (timeout, transport
error or malformed reply), `some d` a reply payload `d`.  Starts from a
snapshot of `maxChannels` fresh channel entries and merges whatever
succeeded, in the source's order (STANDBY, READGM, READALLALARMS2). -/
def initialStatus (maxChannels : Nat) : UdpStatus :=
  { power := none, fault := none, channels := List.replicate maxChannels emptyChannel }

/-- The first `try { ... } catch(_) { }` block: merge a STANDBY reply when
one arrived, skip silently on failure. -/
def stepStandby (standbyRes : Option (List Nat)) (st : UdpStatus) : UdpStatus :=
  match standbyRes with
  | some d => applyStandby st d
  | none => st

/-- The second `try { ... } catch(_) { }` block (READGM). -/
def stepGm (gmRes : Option (List Nat)) (st : UdpStatus) (maxChannels : Nat) : UdpStatus :=
  match gmRes with
  | some d => applyGm st d maxChannels
  | none => st

/-- The third `try { ... } catch(_) { }` block (READALLALARMS2). -/
def stepAlarms (alarmsRes : Option (List Nat)) (st : UdpStatus) (maxChannels : Nat) :
    UdpStatus :=
  match alarmsRes with
  | some d => applyAlarms st d maxChannels
  | none => st

def readUdpStatus (standbyRes gmRes alarmsRes : Option (List Nat)) (maxChannels : Nat) :
    UdpStatus :=
  stepAlarms alarmsRes
    (stepGm gmRes (stepStandby standbyRes (initialStatus maxChannels)) maxChannels)
    maxChannels

/-- Outcome of one `udpRequest` exchange. -/
inductive ExchangeResult where
  | payload (d : List Nat)
  | error (msg : String)
  | timeout
deriving DecidableEq, Repr

/-- The `message` handler of `udpRequest`: parse the datagram (a parse
failure rejects the exchange), reject with "Unexpected cmd in response" when
the inverted command does not match, reject with "Cookie mismatch" when the
cookie does not match, and otherwise resolve with the payload. -/
def handleMessage (cmd cookie : Nat) (msg : List Nat) : ExchangeResult :=
  match parseHeader msg with
  | Except.error e => ExchangeResult.error e
  | Except.ok h =>
    if Nat.xor h.cmd 0xff % 256 ≠ cmd then ExchangeResult.error ("Unexpected cmd in response")
    else if h.cookie ≠ cookie then ExchangeResult.error ("Cookie mismatch")
    else ExchangeResult.payload h.data

/-- The receive side of `udpRequest` over the datagrams arriving before the
deadline: the single-shot listener consumes exactly the first datagram
(later ones are never seen), and the timer fires only when none arrives. -/
def udpExchange (cmd cookie : Nat) (inbox : List (List Nat)) : ExchangeResult :=
  match inbox with
  | [] => ExchangeResult.timeout
  | msg :: _ => handleMessage cmd cookie msg

/-- The frame sent by `udpRequest`: the checksum is forced to zero when the
caller asks for it or when the command is STANDBY. -/
def udpRequestFrame (cmd cookie answerPort : Nat) (data : List Nat) (forceZeroCrc : Bool) :
    List Nat :=
  buildFrame cmd cookie answerPort data (forceZeroCrc || cmd == CMD.STANDBY)

/-! ## Frame codec lemmas -/

lemma frameBody_length (cmd cookie ap : Nat) (data : List Nat) :
    (frameBody cmd cookie ap data).length = 8 + data.length := by
  simp [frameBody, writeUInt16LE]
  omega

lemma buildFrame_length (cmd cookie ap : Nat) (data : List Nat) (f : Bool) :
    (buildFrame cmd cookie ap data f).length = 12 + data.length := by
  simp [buildFrame, frameTrailer, writeUInt16LE, frameBody_length]
  omega

lemma frameCrc_lt (cmd cookie ap : Nat) (data : List Nat) (f : Bool) :
    frameCrc cmd cookie ap data f < 65536 := by
  unfold frameCrc
  split
  · omega
  · exact Nat.mod_lt _ (by omega)

lemma lowHigh_eq (v : Nat) (hv : v < 65536) :
    v % 65536 % 256 + 256 * (v % 65536 / 256 % 256) = v := by
  omega

lemma buildFrame_drop8 (cmd cookie ap : Nat) (data : List Nat) (f : Bool) :
    (buildFrame cmd cookie ap data f).drop 8 =
      data ++ frameTrailer cmd (frameCrc cmd cookie ap data f) := rfl

lemma buildFrame_getD_trailer (cmd cookie ap : Nat) (data : List Nat) (f : Bool) (j : Nat) :
    (buildFrame cmd cookie ap data f).getD (8 + data.length + j) 0 =
      (frameTrailer cmd (frameCrc cmd cookie ap data f)).getD j 0 := by
  rw [show buildFrame cmd cookie ap data f =
      frameBody cmd cookie ap data ++
        frameTrailer cmd (frameCrc cmd cookie ap data f) from rfl]
  rw [List.getD_append_right _ _ _ _ (by rw [frameBody_length]; omega)]
  rw [frameBody_length]
  congr 1
  omega

lemma buildFrame_crcField (cmd cookie ap : Nat) (data : List Nat) (f : Bool) :
    readUInt16LE (buildFrame cmd cookie ap data f) (8 + data.length) =
      frameCrc cmd cookie ap data f := by
  have h0 := buildFrame_getD_trailer cmd cookie ap data f 0
  have h1 := buildFrame_getD_trailer cmd cookie ap data f 1
  rw [Nat.add_zero] at h0
  have t0 : (frameTrailer cmd (frameCrc cmd cookie ap data f)).getD 0 0 =
      frameCrc cmd cookie ap data f % 65536 % 256 := rfl
  have t1 : (frameTrailer cmd (frameCrc cmd cookie ap data f)).getD 1 0 =
      frameCrc cmd cookie ap data f % 65536 / 256 % 256 := rfl
  unfold readUInt16LE
  rw [h0, h1, t0, t1]
  exact lowHigh_eq _ (frameCrc_lt cmd cookie ap data f)

/-- Master round-trip lemma: parsing a built frame succeeds and recovers the
header fields; the `notCmd`/`ETX` reads of `parseHeader` land one byte early
(on the CRC high byte and the inverted-command byte respectively). -/
lemma parseHeader_buildFrame (cmd cookie ap : Nat) (data : List Nat) (f : Bool)
    (hcmd : cmd < 256) (hck : cookie < 65536) (hap : ap < 65536)
    (hlen : data.length ≤ 65535) :
    parseHeader (buildFrame cmd cookie ap data f) =
      Except.ok
        { STX := 2, cmd := cmd, cookie := cookie, count := data.length, answerPort := ap
          data := data
          crc16 := frameCrc cmd cookie ap data f
          notCmd := frameCrc cmd cookie ap data f / 256 % 256
          ETX := 255 - cmd } := by
  have h0 : (buildFrame cmd cookie ap data f).getD 0 0 = 2 := rfl
  have h1 : (buildFrame cmd cookie ap data f).getD 1 0 = cmd := by
    have h : (buildFrame cmd cookie ap data f).getD 1 0 = cmd % 256 := rfl
    rw [h, Nat.mod_eq_of_lt hcmd]
  have h2 : (buildFrame cmd cookie ap data f).getD 2 0 = cookie % 65536 % 256 := rfl
  have h3 : (buildFrame cmd cookie ap data f).getD 3 0 = cookie % 65536 / 256 % 256 := rfl
  have h4 : (buildFrame cmd cookie ap data f).getD 4 0 = data.length % 65536 % 256 := rfl
  have h5 : (buildFrame cmd cookie ap data f).getD 5 0 =
      data.length % 65536 / 256 % 256 := rfl
  have h6 : (buildFrame cmd cookie ap data f).getD 6 0 = ap % 65536 % 256 := rfl
  have h7 : (buildFrame cmd cookie ap data f).getD 7 0 = ap % 65536 / 256 % 256 := rfl
  have hck2 : readUInt16LE (buildFrame cmd cookie ap data f) 2 = cookie := by
    have e : readUInt16LE (buildFrame cmd cookie ap data f) 2 =
        cookie % 65536 % 256 + 256 * (cookie % 65536 / 256 % 256) := rfl
    rw [e]
    omega
  have hcnt : readUInt16LE (buildFrame cmd cookie ap data f) 4 = data.length := by
    have e : readUInt16LE (buildFrame cmd cookie ap data f) 4 =
        data.length % 65536 % 256 + 256 * (data.length % 65536 / 256 % 256) := rfl
    rw [e]
    omega
  have hap6 : readUInt16LE (buildFrame cmd cookie ap data f) 6 = ap := by
    have e : readUInt16LE (buildFrame cmd cookie ap data f) 6 =
        ap % 65536 % 256 + 256 * (ap % 65536 / 256 % 256) := rfl
    rw [e]
    omega
  have hlenF : (buildFrame cmd cookie ap data f).length = 12 + data.length :=
    buildFrame_length cmd cookie ap data f
  have hdata : ((buildFrame cmd cookie ap data f).drop 8).take data.length = data := by
    rw [buildFrame_drop8]
    exact List.take_left data _
  have hcrc : readUInt16LE (buildFrame cmd cookie ap data f) (8 + data.length) =
      frameCrc cmd cookie ap data f := buildFrame_crcField cmd cookie ap data f
  have hn : (buildFrame cmd cookie ap data f).getD (8 + data.length + 1) 0 =
      frameCrc cmd cookie ap data f / 256 % 256 := by
    rw [buildFrame_getD_trailer]
    show frameCrc cmd cookie ap data f % 65536 / 256 % 256 = _
    rw [Nat.mod_eq_of_lt (frameCrc_lt cmd cookie ap data f)]
  have he : (buildFrame cmd cookie ap data f).getD (8 + data.length + 2) 0 = 255 - cmd := by
    rw [buildFrame_getD_trailer]
    show 255 - cmd % 256 = 255 - cmd
    rw [Nat.mod_eq_of_lt hcmd]
  unfold parseHeader
  rw [hcnt, hlenF, h0, h1, hck2, hap6, hdata, hcrc, hn, he]
  rw [if_neg (by omega), if_neg (by norm_num), if_neg (by omega)]

lemma crc16IBM_buildFrame (cmd cookie ap : Nat) (data : List Nat) (f : Bool) :
    crc16IBM (buildFrame cmd cookie ap data f) 0 (8 + data.length) =
      crc16IBM (frameBody cmd cookie ap data) 0 (8 + data.length) := by
  have hF : (buildFrame cmd cookie ap data f).take (8 + data.length) =
      frameBody cmd cookie ap data := by
    conv_lhs =>
      rw [show buildFrame cmd cookie ap data f =
          frameBody cmd cookie ap data ++
            frameTrailer cmd (frameCrc cmd cookie ap data f) from rfl]
      rw [show 8 + data.length = (frameBody cmd cookie ap data).length from
          (frameBody_length cmd cookie ap data).symm]
    exact List.take_left _ _
  have hB : (frameBody cmd cookie ap data).take (8 + data.length) =
      frameBody cmd cookie ap data := by
    conv_lhs =>
      rw [show 8 + data.length = (frameBody cmd cookie ap data).length from
          (frameBody_length cmd cookie ap data).symm]
    exact List.take_length _
  unfold crc16IBM
  rw [List.drop_zero, List.drop_zero, hF, hB]

/-- `bitSet w k` is the standard bit test. -/
lemma bitSet_eq_testBit (w k : Nat) : bitSet w k = w.testBit k := by
  unfold bitSet
  rw [Nat.shiftLeft_eq, one_mul]
  rcases h : w.testBit k with _ | _
  · simp [Nat.and_two_pow, h]
  · simp [Nat.and_two_pow, h]

/-! ## Decoder loop lemmas -/

lemma parseReadgmLoop_length (data : List Nat) :
    ∀ (r p : Nat), (parseReadgmLoop data p r).length = min r ((data.length - p) / 6) := by
  intro r
  induction r with
  | zero => intro p; simp [parseReadgmLoop]
  | succ n ih =>
    intro p
    unfold parseReadgmLoop
    split_ifs with h
    · have h0 : (data.length - p) / 6 = 0 := by omega
      simp [h0]
    · simp only [List.length_cons, ih]
      have h6 : (data.length - p) / 6 = (data.length - (p + 6)) / 6 + 1 := by omega
      rw [h6]
      omega

lemma parseReadgmLoop_getD (data : List Nat) :
    ∀ (r p i : Nat), i < (parseReadgmLoop data p r).length →
      (parseReadgmLoop data p r).getD i default = readGmChannel data (p + 6 * i) := by
  intro r
  induction r with
  | zero => intro p i h; simp [parseReadgmLoop] at h
  | succ n ih =>
    intro p i h
    unfold parseReadgmLoop at h ⊢
    split_ifs at h ⊢ with hc
    · simp at h
    · cases i with
      | zero => simp [List.getD_cons_zero]
      | succ j =>
        rw [List.getD_cons_succ]
        rw [ih (p + 6) j (by simp only [List.length_cons] at h; omega)]
        congr 1
        omega

lemma readAlarmWords_length (data : List Nat) :
    ∀ (n p : Nat), (readAlarmWords data p n).length = min n ((data.length - p) / 4) := by
  intro n
  induction n with
  | zero => intro p; simp [readAlarmWords]
  | succ k ih =>
    intro p
    unfold readAlarmWords
    split_ifs with h
    · simp only [List.length_cons, ih]
      have h4 : (data.length - p) / 4 = (data.length - (p + 4)) / 4 + 1 := by omega
      rw [h4]
      omega
    · have h0 : (data.length - p) / 4 = 0 := by omega
      simp [h0]

/-! ## Aggregator lemmas -/

lemma mergeChannels_length (f : Nat → ChannelStatus → ChannelStatus) :
    ∀ (l : List ChannelStatus) (i0 : Nat), (mergeChannels f i0 l).length = l.length := by
  intro l
  induction l with
  | nil => intro i0; rfl
  | cons c rest ih => intro i0; simp [mergeChannels, ih]

lemma mergeChannels_getD (f : Nat → ChannelStatus → ChannelStatus) (l : List ChannelStatus) :
    ∀ (i0 i : Nat) (d : ChannelStatus),
      (mergeChannels f i0 l).getD i d =
        if i < l.length then f (i0 + i) (l.getD i d) else d := by
  induction l with
  | nil => intro i0 i d; simp [mergeChannels]
  | cons c rest ih =>
    intro i0 i d
    cases i with
    | zero => simp [mergeChannels]
    | succ j =>
      simp only [mergeChannels, List.getD_cons_succ, List.length_cons]
      rw [ih (i0 + 1) j d]
      by_cases hj : j < rest.length
      · rw [if_pos hj, if_pos (by omega)]
        congr 1
        omega
      · rw [if_neg hj, if_neg (by omega)]

lemma replicate_getD (c d : ChannelStatus) :
    ∀ (n i : Nat), (List.replicate n c).getD i d = if i < n then c else d := by
  intro n
  induction n with
  | zero => intro i; simp [List.replicate]
  | succ k ih =>
    intro i
    cases i with
    | zero => simp [List.replicate]
    | succ j =>
      simp only [List.replicate, List.getD_cons_succ, ih j]
      by_cases hj : j < k
      · rw [if_pos hj, if_pos (by omega)]
      · rw [if_neg hj, if_neg (by omega)]

lemma applyStandby_channels (st : UdpStatus) (d : List Nat) :
    (applyStandby st d).channels = st.channels := by
  unfold applyStandby
  split
  · split_ifs <;> rfl
  · rfl

lemma applyStandby_fault (st : UdpStatus) (d : List Nat) :
    (applyStandby st d).fault = st.fault := by
  unfold applyStandby
  split
  · split_ifs <;> rfl
  · rfl

lemma applyStandby_power (st : UdpStatus) (d : List Nat) :
    (applyStandby st d).power =
      if 2 ≤ d.length ∧ d.getD 0 0 = 1 then some (d.getD 1 0 == 2) else st.power := by
  unfold applyStandby parseStandbyData
  by_cases hl : 2 ≤ d.length
  · rw [if_pos hl]
    show (if (d.getD 0 0 == 1) = true then { st with power := some (d.getD 1 0 == 2) }
        else st).power = _
    by_cases h1 : d.getD 0 0 = 1
    · rw [if_pos (by simpa using h1), if_pos ⟨hl, h1⟩]
    · rw [if_neg (by simpa using h1), if_neg (by tauto)]
  · rw [if_neg hl]
    show st.power = _
    rw [if_neg (by tauto)]

lemma applyGm_power (st : UdpStatus) (d : List Nat) (m : Nat) :
    (applyGm st d m).power = st.power := by
  unfold applyGm
  split_ifs <;> rfl

lemma applyGm_fault (st : UdpStatus) (d : List Nat) (m : Nat) :
    (applyGm st d m).fault = st.fault := by
  unfold applyGm
  split_ifs <;> rfl

lemma applyGm_channels_length (st : UdpStatus) (d : List Nat) (m : Nat) :
    (applyGm st d m).channels.length = st.channels.length := by
  unfold applyGm
  split_ifs with h
  · exact mergeChannels_length _ _ _
  · rfl

lemma applyAlarms_power (st : UdpStatus) (d : List Nat) (m : Nat) :
    (applyAlarms st d m).power = st.power := by
  unfold applyAlarms
  split_ifs <;> rfl

lemma applyAlarms_fault (st : UdpStatus) (d : List Nat) (m : Nat) :
    (applyAlarms st d m).fault =
      if (parseReadAllAlarms2Data d).ok then some (parseReadAllAlarms2Data d).fault
      else st.fault := by
  unfold applyAlarms
  split_ifs <;> rfl

lemma applyAlarms_channels_length (st : UdpStatus) (d : List Nat) (m : Nat) :
    (applyAlarms st d m).channels.length = st.channels.length := by
  unfold applyAlarms
  split_ifs with h
  · exact mergeChannels_length _ _ _
  · rfl

lemma stepStandby_channels (sb : Option (List Nat)) (st : UdpStatus) :
    (stepStandby sb st).channels = st.channels := by
  cases sb <;> simp [stepStandby, applyStandby_channels]

lemma stepStandby_fault (sb : Option (List Nat)) (st : UdpStatus) :
    (stepStandby sb st).fault = st.fault := by
  cases sb <;> simp [stepStandby, applyStandby_fault]

lemma stepGm_channels_length (gm : Option (List Nat)) (st : UdpStatus) (m : Nat) :
    (stepGm gm st m).channels.length = st.channels.length := by
  cases gm <;> simp [stepGm, applyGm_channels_length]

lemma stepGm_power (gm : Option (List Nat)) (st : UdpStatus) (m : Nat) :
    (stepGm gm st m).power = st.power := by
  cases gm <;> simp [stepGm, applyGm_power]

lemma stepGm_fault (gm : Option (List Nat)) (st : UdpStatus) (m : Nat) :
    (stepGm gm st m).fault = st.fault := by
  cases gm <;> simp [stepGm, applyGm_fault]

lemma stepAlarms_channels_length (al : Option (List Nat)) (st : UdpStatus) (m : Nat) :
    (stepAlarms al st m).channels.length = st.channels.length := by
  cases al <;> simp [stepAlarms, applyAlarms_channels_length]

lemma stepAlarms_power (al : Option (List Nat)) (st : UdpStatus) (m : Nat) :
    (stepAlarms al st m).power = st.power := by
  cases al <;> simp [stepAlarms, applyAlarms_power]

lemma readUdpStatus_channels_length (sb gm al : Option (List Nat)) (m : Nat) :
    (readUdpStatus sb gm al m).channels.length = m := by
  unfold readUdpStatus
  rw [stepAlarms_channels_length, stepGm_channels_length, stepStandby_channels]
  simp [initialStatus]

lemma readUdpStatus_some_alarms (sb gm : Option (List Nat)) (d : List Nat) (m : Nat) :
    readUdpStatus sb gm (some d) m = applyAlarms (readUdpStatus sb gm none m) d m := rfl

/-- The seven alarm-flag fields of a channel entry, as one observation. -/
def alarmFlags (c : ChannelStatus) : List (Option Bool) :=
  [c.clip, c.thermalSOA, c.overTemp, c.railFault, c.auxCurrentFault, c.otherFault, c.lowLoad]

lemma mergeGmChannel_alarmFlags (c : ChannelStatus) (g : GmChannel) :
    alarmFlags (mergeGmChannel c g) = alarmFlags c := rfl

lemma mergeAlarmChannel_mute (c : ChannelStatus) (w : Nat) :
    (mergeAlarmChannel c w).mute = c.mute := by
  unfold mergeAlarmChannel
  split_ifs <;> rfl

lemma mergeAlarmChannel_gain (c : ChannelStatus) (w : Nat) :
    (mergeAlarmChannel c w).gain = c.gain := by
  unfold mergeAlarmChannel
  split_ifs <;> rfl

lemma mergeAlarmChannel_flags_congr (c1 c2 : ChannelStatus) (w : Nat)
    (h : alarmFlags c1 = alarmFlags c2) :
    alarmFlags (mergeAlarmChannel c1 w) = alarmFlags (mergeAlarmChannel c2 w) := by
  unfold mergeAlarmChannel
  split_ifs
  · rfl
  · exact h

lemma initial_channel (m i : Nat) :
    (initialStatus m).channels.getD i emptyChannel = emptyChannel := by
  simp only [initialStatus]
  rw [replicate_getD]
  split_ifs <;> rfl

lemma applyGm_channel_getD (st : UdpStatus) (d : List Nat) (m i : Nat)
    (hst : st.channels.length = m) :
    (applyGm st d m).channels.getD i emptyChannel =
      if (parseReadgmData d m).ok = true ∧
          i < min (parseReadgmData d m).channels.length m ∧ i < m then
        mergeGmChannel (st.channels.getD i emptyChannel)
          ((parseReadgmData d m).channels.getD i default)
      else st.channels.getD i emptyChannel := by
  unfold applyGm
  by_cases hok : (parseReadgmData d m).ok = true
  · rw [if_pos hok]
    show (mergeChannels _ 0 st.channels).getD i emptyChannel = _
    rw [mergeChannels_getD]
    by_cases hi : i < st.channels.length
    · rw [if_pos hi]
      simp only [Nat.zero_add]
      by_cases him : i < min (parseReadgmData d m).channels.length m
      · rw [if_pos him, if_pos ⟨hok, him, by omega⟩]
      · rw [if_neg him, if_neg (by tauto)]
    · rw [if_neg hi, if_neg (by rintro ⟨-, -, hc⟩; omega)]
      rw [List.getD_eq_default _ _ (by omega)]
  · rw [if_neg hok, if_neg (by tauto)]

lemma applyAlarms_channel_getD (st : UdpStatus) (d : List Nat) (m i : Nat)
    (hst : st.channels.length = m) :
    (applyAlarms st d m).channels.getD i emptyChannel =
      if (parseReadAllAlarms2Data d).ok = true ∧
          i < min ((parseReadAllAlarms2Data d).channelWords.getD []).length m ∧ i < m then
        mergeAlarmChannel (st.channels.getD i emptyChannel)
          (((parseReadAllAlarms2Data d).channelWords.getD []).getD i 0)
      else st.channels.getD i emptyChannel := by
  unfold applyAlarms
  by_cases hok : (parseReadAllAlarms2Data d).ok = true
  · rw [if_pos hok]
    show (mergeChannels _ 0 st.channels).getD i emptyChannel = _
    rw [mergeChannels_getD]
    by_cases hi : i < st.channels.length
    · rw [if_pos hi]
      simp only [Nat.zero_add]
      by_cases him : i < min ((parseReadAllAlarms2Data d).channelWords.getD []).length m
      · rw [if_pos him, if_pos ⟨hok, him, by omega⟩]
      · rw [if_neg him, if_neg (by tauto)]
    · rw [if_neg hi, if_neg (by rintro ⟨-, -, hc⟩; omega)]
      rw [List.getD_eq_default _ _ (by omega)]
  · rw [if_neg hok, if_neg (by tauto)]

/-- Channel entry of the snapshot when the alarms exchange failed: only the
READGM layer applies, over a fresh entry; independent of the STANDBY outcome. -/
lemma readUdpStatus_gm_channel (sb gm : Option (List Nat)) (m i : Nat) :
    (readUdpStatus sb gm none m).channels.getD i emptyChannel =
      match gm with
      | none => emptyChannel
      | some d =>
        if (parseReadgmData d m).ok = true ∧
            i < min (parseReadgmData d m).channels.length m ∧ i < m then
          mergeGmChannel emptyChannel ((parseReadgmData d m).channels.getD i default)
        else emptyChannel := by
  cases gm with
  | none =>
    show (stepStandby sb (initialStatus m)).channels.getD i emptyChannel = _
    rw [stepStandby_channels]
    exact initial_channel m i
  | some d =>
    show (applyGm (stepStandby sb (initialStatus m)) d m).channels.getD i emptyChannel = _
    rw [applyGm_channel_getD _ _ _ _ (by rw [stepStandby_channels]; simp [initialStatus])]
    rw [stepStandby_channels, initial_channel]

/-- Channel entry of the full snapshot: the alarms layer applied on top of
the gm layer. -/
lemma readUdpStatus_channel_eq (sb gm al : Option (List Nat)) (m i : Nat) :
    (readUdpStatus sb gm al m).channels.getD i emptyChannel =
      match al with
      | none => (readUdpStatus sb gm none m).channels.getD i emptyChannel
      | some d =>
        if (parseReadAllAlarms2Data d).ok = true ∧
            i < min ((parseReadAllAlarms2Data d).channelWords.getD []).length m ∧ i < m then
          mergeAlarmChannel ((readUdpStatus sb gm none m).channels.getD i emptyChannel)
            (((parseReadAllAlarms2Data d).channelWords.getD []).getD i 0)
        else (readUdpStatus sb gm none m).channels.getD i emptyChannel := by
  cases al with
  | none => rfl
  | some d =>
    rw [readUdpStatus_some_alarms]
    exact applyAlarms_channel_getD _ _ _ _ (readUdpStatus_channels_length sb gm none m)

lemma readUdpStatus_power_eq (sb gm al : Option (List Nat)) (m : Nat) :
    (readUdpStatus sb gm al m).power =
      match sb with
      | none => none
      | some d =>
        if 2 ≤ d.length ∧ d.getD 0 0 = 1 then some (d.getD 1 0 == 2) else none := by
  unfold readUdpStatus
  rw [stepAlarms_power, stepGm_power]
  cases sb with
  | none => rfl
  | some d =>
    show (applyStandby (initialStatus m) d).power = _
    rw [applyStandby_power]
    rfl

lemma readUdpStatus_fault_eq (sb gm al : Option (List Nat)) (m : Nat) :
    (readUdpStatus sb gm al m).fault =
      match al with
      | none => none
      | some d =>
        if (parseReadAllAlarms2Data d).ok then some (parseReadAllAlarms2Data d).fault
        else none := by
  unfold readUdpStatus
  cases al with
  | none =>
    show (stepGm gm (stepStandby sb (initialStatus m)) m).fault = none
    rw [stepGm_fault, stepStandby_fault]
    rfl
  | some d =>
    show (applyAlarms (stepGm gm (stepStandby sb (initialStatus m)) m) d m).fault = _
    rw [applyAlarms_fault, stepGm_fault, stepStandby_fault]
    rfl

/-- The alarm flags of a channel entry when the alarms exchange failed are
all unset, whatever the other exchanges returned. -/
lemma readUdpStatus_gm_channel_flags (sb gm : Option (List Nat)) (m i : Nat) :
    alarmFlags ((readUdpStatus sb gm none m).channels.getD i emptyChannel) =
      alarmFlags emptyChannel := by
  rw [readUdpStatus_gm_channel]
  cases gm with
  | none => rfl
  | some d =>
    dsimp only
    split_ifs
    · exact mergeGmChannel_alarmFlags _ _
    · rfl

lemma readUdpStatus_channel_mute (sb gm al : Option (List Nat)) (m i : Nat) :
    ((readUdpStatus sb gm al m).channels.getD i emptyChannel).mute =
      ((readUdpStatus none gm none m).channels.getD i emptyChannel).mute := by
  rw [readUdpStatus_channel_eq]
  cases al with
  | none => rw [readUdpStatus_gm_channel, readUdpStatus_gm_channel]
  | some d =>
    dsimp only
    split_ifs
    · rw [mergeAlarmChannel_mute, readUdpStatus_gm_channel, readUdpStatus_gm_channel]
    · rw [readUdpStatus_gm_channel, readUdpStatus_gm_channel]

lemma readUdpStatus_channel_gain (sb gm al : Option (List Nat)) (m i : Nat) :
    ((readUdpStatus sb gm al m).channels.getD i emptyChannel).gain =
      ((readUdpStatus none gm none m).channels.getD i emptyChannel).gain := by
  rw [readUdpStatus_channel_eq]
  cases al with
  | none => rw [readUdpStatus_gm_channel, readUdpStatus_gm_channel]
  | some d =>
    dsimp only
    split_ifs
    · rw [mergeAlarmChannel_gain, readUdpStatus_gm_channel, readUdpStatus_gm_channel]
    · rw [readUdpStatus_gm_channel, readUdpStatus_gm_channel]

lemma readUdpStatus_channel_flags (sb gm al : Option (List Nat)) (m i : Nat) :
    alarmFlags ((readUdpStatus sb gm al m).channels.getD i emptyChannel) =
      alarmFlags ((readUdpStatus none none al m).channels.getD i emptyChannel) := by
  rw [readUdpStatus_channel_eq sb gm al, readUdpStatus_channel_eq none none al]
  cases al with
  | none => rw [readUdpStatus_gm_channel_flags, readUdpStatus_gm_channel_flags]
  | some d =>
    dsimp only
    split_ifs
    · exact mergeAlarmChannel_flags_congr _ _ _
        (by rw [readUdpStatus_gm_channel_flags, readUdpStatus_gm_channel_flags])
    · rw [readUdpStatus_gm_channel_flags, readUdpStatus_gm_channel_flags]

/-! ## Claim theorems -/

/-- C1: for every command byte, 16-bit cookie, 16-bit reply port and payload
of length at most 65535, decoding the encoded frame recovers the command,
cookie, payload length, reply port and payload bytes, and the encoded
checksum field equals the CRC-16 (feedback `0xA001`, initial `0xFFFF`,
LSB-first) over the bytes from the start marker through the last payload
byte — except that it equals 0 when `forceZeroCrc` is set, regardless of the
payload. -/
theorem claim1_frame_roundtrip (cmd cookie ap : Nat) (data : List Nat) (f : Bool)
    (hcmd : cmd < 256) (hck : cookie < 65536) (hap : ap < 65536)
    (hlen : data.length ≤ 65535) :
    parseOk (buildFrame cmd cookie ap data f) = true ∧
    (parsedOrDefault (buildFrame cmd cookie ap data f)).cmd = cmd ∧
    (parsedOrDefault (buildFrame cmd cookie ap data f)).cookie = cookie ∧
    (parsedOrDefault (buildFrame cmd cookie ap data f)).count = data.length ∧
    (parsedOrDefault (buildFrame cmd cookie ap data f)).answerPort = ap ∧
    (parsedOrDefault (buildFrame cmd cookie ap data f)).data = data ∧
    (parsedOrDefault (buildFrame cmd cookie ap data f)).crc16 =
      (if f then 0 else crc16IBM (buildFrame cmd cookie ap data f) 0 (8 + data.length)) := by
  have hm := parseHeader_buildFrame cmd cookie ap data f hcmd hck hap hlen
  unfold parseOk parsedOrDefault
  rw [hm]
  refine ⟨rfl, rfl, rfl, rfl, rfl, rfl, ?_⟩
  show frameCrc cmd cookie ap data f = _
  unfold frameCrc
  split_ifs
  · rfl
  · exact (crc16IBM_buildFrame cmd cookie ap data f).symm

theorem claim1_witness :
    ((1 : Nat) < 256 ∧ (5 : Nat) < 65536 ∧ (7 : Nat) < 65536 ∧
      ([9, 8] : List Nat).length ≤ 65535) ∧
    (parseOk (buildFrame 1 5 7 [9, 8] true) = true ∧
      (parsedOrDefault (buildFrame 1 5 7 [9, 8] true)).cmd = 1 ∧
      (parsedOrDefault (buildFrame 1 5 7 [9, 8] true)).cookie = 5 ∧
      (parsedOrDefault (buildFrame 1 5 7 [9, 8] true)).count = 2 ∧
      (parsedOrDefault (buildFrame 1 5 7 [9, 8] true)).answerPort = 7 ∧
      (parsedOrDefault (buildFrame 1 5 7 [9, 8] true)).data = [9, 8] ∧
      (parsedOrDefault (buildFrame 1 5 7 [9, 8] true)).crc16 = 0) :=
  ⟨⟨by decide, by decide, by decide, by decide⟩,
    claim1_frame_roundtrip 1 5 7 [9, 8] true (by decide) (by decide) (by decide) (by decide)⟩

/-- C3 (counterexample): the claim says that for a raw power-state code other
than 1 or 2 the power field is left unset; but on answer-ok payload
`[1, 3, 0, 0]` (raw code 3) the code sets `power := some false`. -/
theorem claim3_power_unset_counterexample :
    (readUdpStatus (some [1, 3, 0, 0]) none none 1).power = some false := by decide

/-- C3 (amended): after a successful power-state exchange whose answer-ok
byte is 1 (and payload of at least 2 bytes), the snapshot's power field is
`some (raw == 2)` — true iff the raw state code is 2, and false for every
other raw code, including 1; it is unset only when the payload is shorter
than 2 bytes or the answer-ok byte differs from 1. -/
theorem claim3_power_amended (d : List Nat) (gm al : Option (List Nat)) (m : Nat) :
    (readUdpStatus (some d) gm al m).power =
      if 2 ≤ d.length ∧ d.getD 0 0 = 1 then some (d.getD 1 0 == 2) else none := by
  rw [readUdpStatus_power_eq]

/-- C8: every frame sent for the standby-read (STANDBY) command carries a
zero checksum field regardless of the payload, while frames for the READGM
and READALLALARMS2 commands carry the computed CRC. -/
theorem claim8_standby_zero_checksum (cookie ap : Nat) (data : List Nat) (f : Bool) :
    readUInt16LE (udpRequestFrame CMD.STANDBY cookie ap data f) (8 + data.length) = 0 ∧
    readUInt16LE (udpRequestFrame CMD.READGM cookie ap data false) (8 + data.length) =
      crc16IBM (udpRequestFrame CMD.READGM cookie ap data false) 0 (8 + data.length) ∧
    readUInt16LE (udpRequestFrame CMD.READALLALARMS2 cookie ap data false) (8 + data.length) =
      crc16IBM (udpRequestFrame CMD.READALLALARMS2 cookie ap data false) 0
        (8 + data.length) := by
  refine ⟨?_, ?_, ?_⟩
  · show readUInt16LE
        (buildFrame CMD.STANDBY cookie ap data (f || (CMD.STANDBY == CMD.STANDBY)))
        (8 + data.length) = 0
    rw [buildFrame_crcField]
    show frameCrc CMD.STANDBY cookie ap data (f || (CMD.STANDBY == CMD.STANDBY)) = 0
    rw [show (CMD.STANDBY == CMD.STANDBY) = true from rfl, Bool.or_true]
    rfl
  · show readUInt16LE (buildFrame CMD.READGM cookie ap data false) (8 + data.length) = _
    rw [buildFrame_crcField]
    exact (crc16IBM_buildFrame CMD.READGM cookie ap data false).symm
  · show readUInt16LE (buildFrame CMD.READALLALARMS2 cookie ap data false)
        (8 + data.length) = _
    rw [buildFrame_crcField]
    exact (crc16IBM_buildFrame CMD.READALLALARMS2 cookie ap data false).symm

/-- C9: decoding fails exactly when the input is shorter than 12 bytes, or
the start marker is not 0x02, or the declared payload length plus the 4-byte
trailer would extend past the end of the buffer; on every other input it
succeeds and returns the header fields, the payload slice, the checksum
field and the trailer reads, without validating the checksum or end
marker. -/
theorem claim9_parse_failure_conditions (msg : List Nat) :
    (parseOk msg = false ↔
      msg.length < 12 ∨ msg.getD 0 0 ≠ 2 ∨ msg.length < readUInt16LE msg 4 + 12) ∧
    (parseOk msg = true →
      parseHeader msg = Except.ok
        { STX := msg.getD 0 0
          cmd := msg.getD 1 0
          cookie := readUInt16LE msg 2
          count := readUInt16LE msg 4
          answerPort := readUInt16LE msg 6
          data := (msg.drop 8).take (readUInt16LE msg 4)
          crc16 := readUInt16LE msg (8 + readUInt16LE msg 4)
          notCmd := msg.getD (8 + readUInt16LE msg 4 + 1) 0
          ETX := msg.getD (8 + readUInt16LE msg 4 + 2) 0 }) := by
  constructor
  · unfold parseOk parseHeader
    split_ifs with hA hB hC
    · exact iff_of_true rfl (Or.inl hA)
    · exact iff_of_true rfl (Or.inr (Or.inl hB))
    · exact iff_of_true rfl (Or.inr (Or.inr (by omega)))
    · refine iff_of_false (by simp) ?_
      push_neg
      exact ⟨by omega, not_not.mp hB, by omega⟩
  · intro hok
    unfold parseOk parseHeader at hok
    unfold parseHeader
    split_ifs at hok ⊢
    rfl

theorem claim9_witness :
    parseOk [2, 1, 5, 0, 0, 0, 7, 0, 211, 119, 254, 3] = true ∧
    parseHeader [2, 1, 5, 0, 0, 0, 7, 0, 211, 119, 254, 3] =
      Except.ok
        { STX := 2, cmd := 1, cookie := 5, count := 0, answerPort := 7, data := [],
          crc16 := 30675, notCmd := 119, ETX := 254 } :=
  ⟨by decide,
    (claim9_parse_failure_conditions [2, 1, 5, 0, 0, 0, 7, 0, 211, 119, 254, 3]).2 (by decide)⟩

/-- C10: when merging a successful alarm exchange, a channel whose
per-channel alarm word is zero gets none of its alarm fields written, so its
snapshot entry is identical to the entry it would have had if no alarm data
had arrived at all. -/
theorem claim10_zero_word_unset (sb gm : Option (List Nat)) (d : List Nat) (m i : Nat)
    (hok : (parseReadAllAlarms2Data d).ok = true)
    (hw : ((parseReadAllAlarms2Data d).channelWords.getD []).getD i 0 = 0) :
    (readUdpStatus sb gm (some d) m).channels.getD i emptyChannel =
      (readUdpStatus sb gm none m).channels.getD i emptyChannel := by
  have hchan := readUdpStatus_channel_eq sb gm (some d) m i
  dsimp only at hchan
  rw [hchan]
  split_ifs with h
  · rw [hw]
    unfold mergeAlarmChannel
    rw [if_neg (not_not_intro rfl)]
  · rfl

theorem claim10_witness :
    ((parseReadAllAlarms2Data [1, 0, 0, 0, 0, 0, 0, 0, 0, 0, 0, 0]).ok = true ∧
      ((parseReadAllAlarms2Data
          [1, 0, 0, 0, 0, 0, 0, 0, 0, 0, 0, 0]).channelWords.getD []).getD 0 0 = 0) ∧
    (readUdpStatus none none (some [1, 0, 0, 0, 0, 0, 0, 0, 0, 0, 0, 0]) 1).channels.getD 0
        emptyChannel =
      (readUdpStatus none none none 1).channels.getD 0 emptyChannel :=
  ⟨⟨by decide, by decide⟩,
    claim10_zero_word_unset none none [1, 0, 0, 0, 0, 0, 0, 0, 0, 0, 0, 0] 1 0
      (by decide) (by decide)⟩

/-- C2 (counterexample): the claim says a reply with a non-matching cookie is
ignored and the exchange keeps waiting; but the single-shot listener rejects
the exchange on the first datagram, so with a wrong-cookie reply first and a
fully matching reply second the exchange fails with "Cookie mismatch"
instead of resolving with the matching reply's payload — even though the
second datagram alone would have been accepted. -/
theorem claim2_cookie_mismatch_counterexample :
    udpExchange 0x19 7 [buildFrame 0xe6 8 0 [] false, buildFrame 0xe6 7 0 [1] false] =
      ExchangeResult.error ("Cookie mismatch") ∧
    handleMessage 0x19 7 (buildFrame 0xe6 7 0 [1] false) = ExchangeResult.payload [1] := by
  exact ⟨by decide, by decide⟩

/-- `handleMessage` never produces `timeout`: every branch of the message
handler either resolves with a payload or rejects with an error. -/
lemma handleMessage_ne_timeout (cmd cookie : Nat) (m : List Nat) :
    handleMessage cmd cookie m ≠ ExchangeResult.timeout := by
  unfold handleMessage
  cases hp : parseHeader m with
  | error e => simp
  | ok h =>
    dsimp only
    split_ifs <;> simp

/-- C2 (amended): the exchange consumes exactly the first datagram that
arrives before the deadline, and Timeout occurs only when no datagram at all
arrives; the first datagram alone decides the outcome (later datagrams are
never examined): if it parses and matches the request's inverted command and
cookie, the exchange resolves with its payload, and a reply failing either
check makes the exchange fail immediately with an error instead of being
ignored — the exchange does not keep waiting. -/
theorem claim2_first_datagram_only (cmd cookie : Nat) (m : List Nat)
    (rest : List (List Nat)) :
    udpExchange cmd cookie [] = ExchangeResult.timeout ∧
    udpExchange cmd cookie (m :: rest) = handleMessage cmd cookie m ∧
    udpExchange cmd cookie (m :: rest) ≠ ExchangeResult.timeout ∧
    (∀ h, parseHeader m = Except.ok h →
      Nat.xor h.cmd 0xff % 256 = cmd → h.cookie = cookie →
      udpExchange cmd cookie (m :: rest) = ExchangeResult.payload h.data) ∧
    (∀ h, parseHeader m = Except.ok h →
      (Nat.xor h.cmd 0xff % 256 ≠ cmd ∨ h.cookie ≠ cookie) →
      ∃ e, udpExchange cmd cookie (m :: rest) = ExchangeResult.error e) := by
  refine ⟨rfl, rfl, handleMessage_ne_timeout cmd cookie m, ?_, ?_⟩
  · intro h hp h1 h2
    show handleMessage cmd cookie m = _
    unfold handleMessage
    rw [hp]
    dsimp only
    rw [if_neg (not_not_intro h1), if_neg (not_not_intro h2)]
  · intro h hp hor
    show ∃ e, handleMessage cmd cookie m = ExchangeResult.error e
    unfold handleMessage
    rw [hp]
    dsimp only
    rcases hor with h1 | h2
    · rw [if_pos h1]
      exact ⟨_, rfl⟩
    · by_cases hcm : Nat.xor h.cmd 0xff % 256 ≠ cmd
      · rw [if_pos hcm]
        exact ⟨_, rfl⟩
      · rw [if_neg hcm, if_pos h2]
        exact ⟨_, rfl⟩

theorem claim2_witness :
    udpExchange 0x19 7 [] = ExchangeResult.timeout ∧
    udpExchange 0x19 7 [buildFrame 0xe6 7 0 [1] false] = ExchangeResult.payload [1] ∧
    udpExchange 0x19 7 [buildFrame 0xe6 8 0 [] false, buildFrame 0xe6 7 0 [1] false] ≠
      ExchangeResult.timeout ∧
    (∃ e, udpExchange 0x19 7
        [buildFrame 0xe6 8 0 [] false, buildFrame 0xe6 7 0 [1] false] =
      ExchangeResult.error e) :=
  ⟨(claim2_first_datagram_only 0x19 7 (buildFrame 0xe6 7 0 [1] false) []).1,
    (claim2_first_datagram_only 0x19 7 (buildFrame 0xe6 7 0 [1] false) []).2.2.2.1
      (parsedOrDefault (buildFrame 0xe6 7 0 [1] false)) rfl (by decide) (by decide),
    (claim2_first_datagram_only 0x19 7 (buildFrame 0xe6 8 0 [] false)
      [buildFrame 0xe6 7 0 [1] false]).2.2.1,
    (claim2_first_datagram_only 0x19 7 (buildFrame 0xe6 8 0 [] false)
      [buildFrame 0xe6 7 0 [1] false]).2.2.2.2
      (parsedOrDefault (buildFrame 0xe6 8 0 [] false)) rfl (Or.inr (by decide))⟩

/-- C4: every nonzero per-channel alarm word merged into the snapshot sets
the named flags from exactly these bit positions: bit 0 → clip, bit 1 →
thermal safe-operating-area violation, bit 3 → over-temperature, bit 4 →
rail-voltage fault, bit 5 → auxiliary-current fault, bit 6 → other-fault,
bit 7 → low-load protection (the word `0b10000011` hence yields clip,
thermalSOA and lowLoad true and the other flags false — see the witness). -/
theorem claim4_alarm_bit_mapping (sb gm : Option (List Nat)) (d : List Nat) (m i : Nat)
    (hok : (parseReadAllAlarms2Data d).ok = true)
    (hi : i < min ((parseReadAllAlarms2Data d).channelWords.getD []).length m)
    (hw : ((parseReadAllAlarms2Data d).channelWords.getD []).getD i 0 ≠ 0) :
    ((readUdpStatus sb gm (some d) m).channels.getD i emptyChannel).clip =
      some (Nat.testBit (((parseReadAllAlarms2Data d).channelWords.getD []).getD i 0) 0) ∧
    ((readUdpStatus sb gm (some d) m).channels.getD i emptyChannel).thermalSOA =
      some (Nat.testBit (((parseReadAllAlarms2Data d).channelWords.getD []).getD i 0) 1) ∧
    ((readUdpStatus sb gm (some d) m).channels.getD i emptyChannel).overTemp =
      some (Nat.testBit (((parseReadAllAlarms2Data d).channelWords.getD []).getD i 0) 3) ∧
    ((readUdpStatus sb gm (some d) m).channels.getD i emptyChannel).railFault =
      some (Nat.testBit (((parseReadAllAlarms2Data d).channelWords.getD []).getD i 0) 4) ∧
    ((readUdpStatus sb gm (some d) m).channels.getD i emptyChannel).auxCurrentFault =
      some (Nat.testBit (((parseReadAllAlarms2Data d).channelWords.getD []).getD i 0) 5) ∧
    ((readUdpStatus sb gm (some d) m).channels.getD i emptyChannel).otherFault =
      some (Nat.testBit (((parseReadAllAlarms2Data d).channelWords.getD []).getD i 0) 6) ∧
    ((readUdpStatus sb gm (some d) m).channels.getD i emptyChannel).lowLoad =
      some (Nat.testBit (((parseReadAllAlarms2Data d).channelWords.getD []).getD i 0) 7) := by
  have hchan := readUdpStatus_channel_eq sb gm (some d) m i
  dsimp only at hchan
  rw [if_pos ⟨hok, hi, by omega⟩] at hchan
  rw [hchan]
  unfold mergeAlarmChannel
  rw [if_pos hw]
  refine ⟨?_, ?_, ?_, ?_, ?_, ?_, ?_⟩ <;>
    exact congrArg some (bitSet_eq_testBit _ _)

theorem claim4_witness :
    ((parseReadAllAlarms2Data [1, 0, 0, 0, 0, 0, 0, 0, 131, 0, 0, 0]).ok = true ∧
      0 < min ((parseReadAllAlarms2Data
          [1, 0, 0, 0, 0, 0, 0, 0, 131, 0, 0, 0]).channelWords.getD []).length 2 ∧
      ((parseReadAllAlarms2Data
          [1, 0, 0, 0, 0, 0, 0, 0, 131, 0, 0, 0]).channelWords.getD []).getD 0 0 ≠ 0) ∧
    (((readUdpStatus none none (some [1, 0, 0, 0, 0, 0, 0, 0, 131, 0, 0, 0]) 2).channels.getD
          0 emptyChannel).clip = some true ∧
      ((readUdpStatus none none (some [1, 0, 0, 0, 0, 0, 0, 0, 131, 0, 0, 0]) 2).channels.getD
          0 emptyChannel).thermalSOA = some true ∧
      ((readUdpStatus none none (some [1, 0, 0, 0, 0, 0, 0, 0, 131, 0, 0, 0]) 2).channels.getD
          0 emptyChannel).overTemp = some false ∧
      ((readUdpStatus none none (some [1, 0, 0, 0, 0, 0, 0, 0, 131, 0, 0, 0]) 2).channels.getD
          0 emptyChannel).railFault = some false ∧
      ((readUdpStatus none none (some [1, 0, 0, 0, 0, 0, 0, 0, 131, 0, 0, 0]) 2).channels.getD
          0 emptyChannel).auxCurrentFault = some false ∧
      ((readUdpStatus none none (some [1, 0, 0, 0, 0, 0, 0, 0, 131, 0, 0, 0]) 2).channels.getD
          0 emptyChannel).otherFault = some false ∧
      ((readUdpStatus none none (some [1, 0, 0, 0, 0, 0, 0, 0, 131, 0, 0, 0]) 2).channels.getD
          0 emptyChannel).lowLoad = some true) ∧
    ((readUdpStatus none none (some [1, 0, 0, 0, 0, 0, 0, 0, 131, 0, 0, 0]) 2).channels.getD
        0 emptyChannel).mute = none :=
  ⟨⟨by decide, by decide, by decide⟩,
    claim4_alarm_bit_mapping none none [1, 0, 0, 0, 0, 0, 0, 0, 131, 0, 0, 0] 2 0
      (by decide) (by decide) (by decide),
    by decide⟩

/-- C5: the aggregator is total and resilient: for every combination of the
three exchanges' outcomes it returns a snapshot with exactly `maxChannels`
channel entries; a failed exchange leaves its fields at the unset default
(power for STANDBY, fault and the alarm flags for READALLALARMS2, mute and
gain for READGM), and each field of the snapshot depends only on its own
exchange's outcome, so one exchange's failure never disturbs what the other
exchanges contributed. -/
theorem claim5_aggregator_resilient (sb gm al : Option (List Nat)) (m : Nat) :
    (readUdpStatus sb gm al m).channels.length = m ∧
    (readUdpStatus none gm al m).power = none ∧
    (readUdpStatus sb gm none m).fault = none ∧
    (∀ i, ((readUdpStatus sb none al m).channels.getD i emptyChannel).mute = none ∧
      ((readUdpStatus sb none al m).channels.getD i emptyChannel).gain = none) ∧
    (∀ i, alarmFlags ((readUdpStatus sb gm none m).channels.getD i emptyChannel) =
      alarmFlags emptyChannel) ∧
    (readUdpStatus sb gm al m).power = (readUdpStatus sb none none m).power ∧
    (readUdpStatus sb gm al m).fault = (readUdpStatus none none al m).fault ∧
    (∀ i, ((readUdpStatus sb gm al m).channels.getD i emptyChannel).mute =
        ((readUdpStatus none gm none m).channels.getD i emptyChannel).mute ∧
      ((readUdpStatus sb gm al m).channels.getD i emptyChannel).gain =
        ((readUdpStatus none gm none m).channels.getD i emptyChannel).gain) ∧
    (∀ i, alarmFlags ((readUdpStatus sb gm al m).channels.getD i emptyChannel) =
      alarmFlags ((readUdpStatus none none al m).channels.getD i emptyChannel)) := by
  refine ⟨readUdpStatus_channels_length sb gm al m, ?_, ?_, ?_, ?_, ?_, ?_, ?_, ?_⟩
  · rw [readUdpStatus_power_eq]
  · rw [readUdpStatus_fault_eq]
  · intro i
    constructor
    · rw [readUdpStatus_channel_mute, readUdpStatus_gm_channel]
      rfl
    · rw [readUdpStatus_channel_gain, readUdpStatus_gm_channel]
      rfl
  · intro i
    exact readUdpStatus_gm_channel_flags sb gm m i
  · rw [readUdpStatus_power_eq, readUdpStatus_power_eq]
  · rw [readUdpStatus_fault_eq, readUdpStatus_fault_eq]
  · intro i
    exact ⟨readUdpStatus_channel_mute sb gm al m i, readUdpStatus_channel_gain sb gm al m i⟩
  · intro i
    exact readUdpStatus_channel_flags sb gm al m i

/-- C6: the gain/mute decoder, on any payload of at least 2 bytes, reads the
channel count from byte 1, caps it at the configured maximum, and emits for
each channel, in order: input gain (LE signed 16-bit, hundredths of dB,
divided by 100), output gain likewise, input mute (byte = 1), output mute
(byte = 1); when the buffer ends early it stops without failing and returns
only the fully-read channels. -/
theorem claim6_readgm_decoder (data : List Nat) (maxChannels : Nat)
    (h2 : 2 ≤ data.length) :
    (parseReadgmData data maxChannels).ok = (data.getD 0 0 == 1) ∧
    (parseReadgmData data maxChannels).channels.length =
      min (min (data.getD 1 0) maxChannels) ((data.length - 2) / 6) ∧
    ∀ i < (parseReadgmData data maxChannels).channels.length,
      (parseReadgmData data maxChannels).channels.getD i default =
        { inGain := (readInt16LE data (2 + 6 * i) : Rat) / 100
          outGain := (readInt16LE data (2 + 6 * i + 2) : Rat) / 100
          inMute := data.getD (2 + 6 * i + 4) 0 == 1
          outMute := data.getD (2 + 6 * i + 5) 0 == 1 } := by
  unfold parseReadgmData
  rw [if_neg (by omega)]
  refine ⟨rfl, parseReadgmLoop_length data _ 2, ?_⟩
  intro i hi
  exact parseReadgmLoop_getD data (min (data.getD 1 0) maxChannels) 2 i hi

theorem claim6_witness :
    2 ≤ ([1, 3, 100, 0, 200, 0, 1, 0] : List Nat).length ∧
    ((parseReadgmData [1, 3, 100, 0, 200, 0, 1, 0] 4).ok = true ∧
      (parseReadgmData [1, 3, 100, 0, 200, 0, 1, 0] 4).channels.length = 1 ∧
      ∀ i < (parseReadgmData [1, 3, 100, 0, 200, 0, 1, 0] 4).channels.length,
        (parseReadgmData [1, 3, 100, 0, 200, 0, 1, 0] 4).channels.getD i default =
          { inGain := (readInt16LE [1, 3, 100, 0, 200, 0, 1, 0] (2 + 6 * i) : Rat) / 100
            outGain := (readInt16LE [1, 3, 100, 0, 200, 0, 1, 0] (2 + 6 * i + 2) : Rat) / 100
            inMute := ([1, 3, 100, 0, 200, 0, 1, 0] : List Nat).getD (2 + 6 * i + 4) 0 == 1
            outMute :=
              ([1, 3, 100, 0, 200, 0, 1, 0] : List Nat).getD (2 + 6 * i + 5) 0 == 1 }) :=
  ⟨by decide, claim6_readgm_decoder [1, 3, 100, 0, 200, 0, 1, 0] 4 (by decide)⟩

/-- C7: the alarm-bitfield decoder short-circuits with no fault data whenever
the answer-ok byte is not 1; when it is 1 and the buffer holds the 32-bit
global word, the per-channel words are truncated to at most 8 and to the
bytes present, and the device-wide fault flag is true iff the global word is
nonzero or some decoded per-channel word is nonzero. -/
theorem claim7_alarms_decoder (data : List Nat) :
    (data.getD 0 0 ≠ 1 →
      parseReadAllAlarms2Data data =
        { ok := false, fault := false, gpio := none, global := none,
          channelWords := none }) ∧
    (data.getD 0 0 = 1 → 8 ≤ data.length →
      ((parseReadAllAlarms2Data data).channelWords.getD []).length =
        min 8 ((data.length - 8) / 4) ∧
      ((parseReadAllAlarms2Data data).fault = true ↔
        readUInt32LE data 4 ≠ 0 ∨
          ∃ w ∈ (parseReadAllAlarms2Data data).channelWords.getD [], w ≠ 0)) := by
  constructor
  · intro h
    unfold parseReadAllAlarms2Data
    split_ifs <;> rfl
  · intro h1 h8
    unfold parseReadAllAlarms2Data
    rw [if_neg (by omega), if_neg (not_not_intro h1), if_neg (by omega)]
    constructor
    · show (readAlarmWords data 8 8).length = _
      exact readAlarmWords_length data 8 8
    · show ((readUInt32LE data 4 != 0) || (readAlarmWords data 8 8).any fun w => w != 0) =
          true ↔ _
      rw [Bool.or_eq_true]
      constructor
      · rintro (hg | ha)
        · exact Or.inl (by simpa using hg)
        · rcases List.any_eq_true.mp ha with ⟨w, hwmem, hne⟩
          exact Or.inr ⟨w, hwmem, by simpa using hne⟩
      · rintro (hg | ⟨w, hwmem, hne⟩)
        · exact Or.inl (by simpa using hg)
        · exact Or.inr (List.any_eq_true.mpr ⟨w, hwmem, by simpa using hne⟩)

theorem claim7_witness :
    parseReadAllAlarms2Data [0, 9] =
      { ok := false, fault := false, gpio := none, global := none,
        channelWords := none } ∧
    (((parseReadAllAlarms2Data
          [1, 0, 0, 0, 5, 0, 0, 0, 7, 0, 0, 0]).channelWords.getD []).length = 1 ∧
      ((parseReadAllAlarms2Data [1, 0, 0, 0, 5, 0, 0, 0, 7, 0, 0, 0]).fault = true ↔
        readUInt32LE [1, 0, 0, 0, 5, 0, 0, 0, 7, 0, 0, 0] 4 ≠ 0 ∨
          ∃ w ∈ (parseReadAllAlarms2Data
              [1, 0, 0, 0, 5, 0, 0, 0, 7, 0, 0, 0]).channelWords.getD [], w ≠ 0)) :=
  ⟨(claim7_alarms_decoder [0, 9]).1 (by decide),
    (claim7_alarms_decoder [1, 0, 0, 0, 5, 0, 0, 0, 7, 0, 0, 0]).2 (by decide) (by decide)⟩

end PowersoftUdp
